import Mathlib

/-
  Verification of the context-merge and page modules of the bundle
  src/assets/js/c9d3b4a1.2a47c75d.js (webpack chunk 9202).

  The bundle registers two modules:
  - module 11151: the MDX component-context utility, with the module-scoped
    default empty mapping `a`, the merge hook `c`, and the provider `o`;
  - module 16956: one documentation page, with front matter `r`, metadata `o`,
    table of contents `i`, and render function `u`.

  A JS plain object used as a component mapping is embedded as a total
  function from string keys to optional values; a key absent from the object
  maps to `none`.
-/

/-- A JS plain object mapping string keys to values of type `V`; `none`
means the key is absent from the object. -/
def Mapping (V : Type) : Type := String → Option V

/-- The JS object spread producing a copy of `t` with the keys of `e`
written on top: the result takes `e`'s value wherever `e` has the key and
`t`'s value otherwise. -/
def spread {V : Type} (t e : Mapping V) : Mapping V :=
  fun k =>
    match e k with
    | some v => some v
    | none => t k

/-- The three shapes the `components` argument of module 11151 can take in
the source: a plain object, a function from the current context to an
object, or `undefined` (absent). -/
inductive Override (V : Type) where
  | map (obj : Mapping V) : Override V
  | fn (f : Mapping V → Mapping V) : Override V
  | undef : Override V

namespace M11151

/-- Module 11151's `a`: the module-scoped default empty component mapping
(the JS literal of an object with no keys). -/
def a (V : Type) : Mapping V := fun _ => none

/-- Module 11151's hook `c`: given the current context `ctx` (read from the
React context) and the caller's `components` value `e`, it returns `e ctx`
when `e` is a function, and the spread of `e` onto `ctx` otherwise;
spreading `undefined` adds no keys. -/
def c {V : Type} (ctx : Mapping V) (e : Override V) : Mapping V :=
  match e with
  | Override.fn f => f ctx
  | Override.map obj => spread ctx obj
  | Override.undef => spread ctx (a V)

/-- Module 11151's provider `o`, reduced to the value it installs for
descendant consumers: with `disableParentContext` set, a function override
is applied to the empty mapping `a`, a plain object override is taken as is
(a JS object is truthy), and an absent override falls back to `a` (the
`e.components || a` branch); otherwise the hook `c` merges the override
onto the inherited context. -/
def o {V : Type} (ctx : Mapping V) (disableParentContext : Bool)
    (components : Override V) : Mapping V :=
  if disableParentContext then
    match components with
    | Override.fn f => f (a V)
    | Override.map obj => obj
    | Override.undef => a V
  else c ctx components

end M11151

/-- C1: for every inherited context `B` and plain-mapping override `O`, the
merge hook returns `B` with each key of `O` overwritten by `O`'s value, and
every key of `B` not in `O` keeps its inherited value; keys of `O` take
precedence over keys of `B`. -/
theorem C1_map_merge {V : Type} (B O : Mapping V) (k : String) :
    (∀ v, O k = some v → M11151.c B (Override.map O) k = some v) ∧
    (O k = none → M11151.c B (Override.map O) k = B k) := by
  constructor
  · intro v h
    simp [M11151.c, spread, h]
  · intro h
    simp [M11151.c, spread, h]

/-- Concrete base mapping for the C1 witness. -/
def B1 : Mapping Nat := fun k => if k = "p" then some 1 else none

/-- Concrete override mapping for the C1 witness. -/
def O1 : Mapping Nat := fun k => if k = "code" then some 2 else none

/-- C1 witness: at a base holding only `p = 1` and an override holding only
`code = 2`, the merged mapping has `code = 2` (override key wins) and
`p = 1` (inherited key kept). -/
theorem C1_map_merge_witness :
    M11151.c B1 (Override.map O1) "code" = some 2 ∧
    M11151.c B1 (Override.map O1) "p" = some 1 :=
  ⟨(C1_map_merge B1 O1 "code").1 2 (by decide),
   ((C1_map_merge B1 O1 "p").2 (by decide)).trans (by decide)⟩

/-- Concrete base mapping for the C2 counterexample and witness. -/
def B2 : Mapping Nat := fun k => if k = "p" then some 1 else none

/-- Concrete function override for the C2 counterexample and witness: it
ignores the current context and returns a mapping holding only `code`. -/
def f2 : Mapping Nat → Mapping Nat :=
  fun _ => fun k => if k = "code" then some 2 else none

/-- C2 counterexample: the key `p` is in the base `B2` but not in `f2 B2`,
so the claim says it keeps its inherited value `some 1`; the hook instead
returns `f2 B2` itself, in which `p` is absent. -/
theorem C2_counterexample :
    f2 B2 "p" = none ∧ B2 "p" = some 1 ∧
    M11151.c B2 (Override.fn f2) "p" = none := by
  decide

/-- C2 amended: with a function override `f` the hook returns `f B`
directly — the function's result replaces the inherited context, and every
key of `B` absent from `f B` is dropped rather than kept. -/
theorem C2_fn_override {V : Type} (B : Mapping V) (f : Mapping V → Mapping V) :
    M11151.c B (Override.fn f) = f B ∧
    ∀ k, f B k = none → M11151.c B (Override.fn f) k = none := by
  refine ⟨rfl, ?_⟩
  intro k h
  simpa [M11151.c] using h

/-- C2 witness: at the concrete base `B2` and function override `f2`, the
hook returns `f2 B2`, and the inherited key `p` (absent from `f2 B2`) is
absent from the result. -/
theorem C2_fn_override_witness :
    M11151.c B2 (Override.fn f2) = f2 B2 ∧
    M11151.c B2 (Override.fn f2) "p" = none :=
  ⟨(C2_fn_override B2 f2).1, (C2_fn_override B2 f2).2 "p" (by decide)⟩

/-- C3: with the disable-parent-context flag set and a plain-mapping
override, the component set exposed to descendants is the override itself,
for every inherited context `B`. -/
theorem C3_disable_map {V : Type} (B obj : Mapping V) :
    M11151.o B true (Override.map obj) = obj := rfl

/-- C4: with the disable-parent-context flag set and a function override
`f`, the component set exposed to descendants is `f` applied to the empty
mapping, for every inherited context `B`. -/
theorem C4_disable_fn {V : Type} (B : Mapping V) (f : Mapping V → Mapping V) :
    M11151.o B true (Override.fn f) = f (M11151.a V) := rfl

/-- C5: with no override supplied, the merge hook returns a mapping equal
to the inherited context. -/
theorem C5_identity {V : Type} (B : Mapping V) :
    M11151.c B Override.undef = B := by
  funext k
  simp [M11151.c, spread, M11151.a]

/-- C6: applying the merge twice with the same plain-mapping override is a
no-op beyond the first application. -/
theorem C6_idempotent {V : Type} (B O : Mapping V) :
    M11151.c (M11151.c B (Override.map O)) (Override.map O) =
      M11151.c B (Override.map O) := by
  funext k
  cases h : O k <;> simp [M11151.c, spread, h]

/-- C9: with the disable-parent-context flag set and the override absent,
the provider exposes the module-scoped empty mapping `a` to descendants. -/
theorem C9_disable_undef {V : Type} (B : Mapping V) :
    M11151.o B true Override.undef = M11151.a V := rfl

/-- A rendering component bound to a tag slot: either one of the default
intrinsic renderers (the string tag literals of the source) or a
caller-supplied custom component, distinguished by an identifier. -/
inductive Renderer where
  | intrinsic (name : String) : Renderer
  | custom (ident : Nat) : Renderer
deriving DecidableEq

namespace M16956

/-- The seven local tag names bound by the render function `u`, in the
order of the source literal. -/
def mdxTags : List String := ["code", "h3", "li", "p", "pre", "strong", "ul"]

/-- The default part of the binding object `t` in `u`: each of the seven
local tag names maps to its intrinsic renderer, and no other key is
present. -/
def pageDefaults : Mapping Renderer :=
  fun k => if k ∈ mdxTags then some (Renderer.intrinsic k) else none

/-- The binding object `t` of the render function `u`: the object literal
spreads the hook result (the hook called with no argument) over the
defaults, then the caller's `components` prop over that, so props win over
inherited context, which wins over defaults. -/
def pageBindings (ctx props : Mapping Renderer) : Mapping Renderer :=
  spread (spread pageDefaults (M11151.c ctx Override.undef)) props

/-- The front-matter record `r` of module 16956. -/
structure FrontMatter where
  sidebar_label : String
  title : String
deriving DecidableEq

/-- A navigation link of the metadata record: a titled permalink. -/
structure NavLink where
  title : String
  permalink : String
deriving DecidableEq

/-- The shape of the metadata record `o` of module 16956. -/
structure PageMetadata where
  id : String
  title : String
  description : String
  source : String
  sourceDirName : String
  slug : String
  permalink : String
  draft : Bool
  unlisted : Bool
  editUrl : String
  tags : List String
  version : String
  frontMatter : FrontMatter
  sidebar : String
  previous : NavLink
  next : NavLink
deriving DecidableEq

/-- Module 16956's front matter `r`. -/
def r : FrontMatter := { sidebar_label := "utils", title := "agentchat.utils" }

/-- Module 16956's metadata record `o`, transliterated field by field from
the source literal; it is a closed constant and no definition in this file
takes it as input or produces a modified copy. -/
def o : PageMetadata :=
  { id := "reference/agentchat/utils"
    title := "agentchat.utils"
    description := "gather\\usage\\summary"
    source := "@site/docs/reference/agentchat/utils.md"
    sourceDirName := "reference/agentchat"
    slug := "/reference/agentchat/utils"
    permalink := "/autogen/docs/reference/agentchat/utils"
    draft := false
    unlisted := false
    editUrl := "https://github.com/microsoft/autogen/edit/main/website/docs/reference/agentchat/utils.md"
    tags := []
    version := "current"
    frontMatter := { sidebar_label := "utils", title := "agentchat.utils" }
    sidebar := "referenceSideBar"
    previous := { title := "user_proxy_agent"
                  permalink := "/autogen/docs/reference/agentchat/user_proxy_agent" }
    next := { title := "abstract_cache_base"
              permalink := "/autogen/docs/reference/cache/abstract_cache_base" } }

/-- A table-of-contents entry of module 16956: heading text, anchor id and
nesting level. -/
structure TocEntry where
  value : String
  id : String
  level : Nat
deriving DecidableEq

/-- Module 16956's table of contents `i`. -/
def i : List TocEntry :=
  [{ value := "gather_usage_summary", id := "gather_usage_summary", level := 3 }]

/-- A node of the element tree produced by the render function `u`: an
element records the local tag slot it was built with, its `id` attribute,
its `className` attribute and its children; a text node is a string
literal child. -/
inductive Node where
  | text (s : String) : Node
  | elem (tag : String) (idAttr : Option String) (className : Option String)
      (children : List Node) : Node

/-- The Python signature code-block string of the page. -/
def signatureText : String :=
  "def gather_usage_summary(\n        agents: List[Agent]) -> Tuple[Dict[str, any], Dict[str, any]]\n"

/-- The example code-block string of the page. -/
def exampleText : String :=
  "total_usage_summary = \x7b\n    \"total_cost\": 0.0006090000000000001,\n    \"gpt-35-turbo\": \x7b\n            \"cost\": 0.0006090000000000001,\n            \"prompt_tokens\": 242,\n            \"completion_tokens\": 123,\n            \"total_tokens\": 365\n    \x7d\n\x7d\n"

/-- The element forest returned by the render function `u` (the children of
the fragment), transliterated node by node from the source, with each
element carrying the tag slot of the binding object it was built from. -/
def pageTree : List Node :=
  [Node.elem "h3" (some "gather_usage_summary") none
     [Node.text "gather_usage_summary"],
   Node.text "\n",
   Node.elem "pre" none none
     [Node.elem "code" none (some "language-python") [Node.text signatureText]],
   Node.text "\n",
   Node.elem "p" none none [Node.text "Gather usage summary from all agents."],
   Node.text "\n",
   Node.elem "p" none none
     [Node.elem "strong" none none [Node.text "Arguments"], Node.text ":"],
   Node.text "\n",
   Node.elem "ul" none none
     [Node.text "\n",
      Node.elem "li" none none
        [Node.elem "code" none none [Node.text "agents"],
         Node.text " - (list): List of agents."],
      Node.text "\n"],
   Node.text "\n",
   Node.elem "p" none none
     [Node.elem "strong" none none [Node.text "Returns"], Node.text ":"],
   Node.text "\n",
   Node.elem "ul" none none
     [Node.text "\n",
      Node.elem "li" none none
        [Node.elem "code" none none [Node.text "tuple"],
         Node.text " - (total_usage_summary, actual_usage_summary)"],
      Node.text "\n"],
   Node.text "\n",
   Node.elem "p" none none
     [Node.elem "strong" none none [Node.text "Example"], Node.text ":"],
   Node.text "\n",
   Node.elem "pre" none none
     [Node.elem "code" none (some "language-python") [Node.text exampleText]],
   Node.text "\n",
   Node.elem "p" none none
     [Node.elem "strong" none none [Node.text "Notes"], Node.text ":"],
   Node.text "\n",
   Node.elem "p" none none
     [Node.elem "code" none none [Node.text "actual_usage_summary"],
      Node.text " follows the same format.\nIf none of the agents incurred any cost (not having a client), then the total_usage_summary and actual_usage_summary will be ",
      Node.elem "code" none none [Node.text "\x7b\x27total_cost\x27: 0\x7d"],
      Node.text "."]]

mutual

/-- All elements of a node (the node itself included) built with the given
tag slot, in document order. -/
def elemsWithTag (tag : String) : Node → List Node
  | Node.text _ => []
  | Node.elem tg idAttr cl cs =>
      (if tg = tag then [Node.elem tg idAttr cl cs] else []) ++
        elemsWithTagList tag cs

/-- All elements of a forest built with the given tag slot, in document
order. -/
def elemsWithTagList (tag : String) : List Node → List Node
  | [] => []
  | n :: ns => elemsWithTag tag n ++ elemsWithTagList tag ns

end

mutual

/-- The tag slots used by a node and its descendants. -/
def nodeTags : Node → List String
  | Node.text _ => []
  | Node.elem tg _ _ cs => tg :: nodeTagsList cs

/-- The tag slots used by a forest. -/
def nodeTagsList : List Node → List String
  | [] => []
  | n :: ns => nodeTags n ++ nodeTagsList ns

end

/-- The `id` attribute of a node (`none` for text nodes). -/
def nodeId : Node → Option String
  | Node.text _ => none
  | Node.elem _ idAttr _ _ => idAttr

/-- The text of a node whose children are exactly one text literal. -/
def soleTextChild : Node → Option String
  | Node.elem _ _ _ [Node.text s] => some s
  | _ => none

end M16956

/-- C7: the defaults of the binding object cover exactly the seven local
tag names, the render tree uses exactly those tag slots, and for every tag
the bound renderer is the caller's props override when supplied, else the
inherited context value when supplied, else the default — props win over
inherited context, which wins over defaults. -/
theorem C7_bindings (ctx props : Mapping Renderer) (k : String) :
    ((M16956.pageDefaults k).isSome ↔ k ∈ M16956.mdxTags) ∧
    List.all (M16956.nodeTagsList M16956.pageTree)
      (fun tg => decide (tg ∈ M16956.mdxTags)) = true ∧
    List.all M16956.mdxTags
      (fun tg => decide (tg ∈ M16956.nodeTagsList M16956.pageTree)) = true ∧
    (∀ v, props k = some v → M16956.pageBindings ctx props k = some v) ∧
    (props k = none → ∀ v, ctx k = some v →
      M16956.pageBindings ctx props k = some v) ∧
    (props k = none → ctx k = none → k ∈ M16956.mdxTags →
      M16956.pageBindings ctx props k = some (Renderer.intrinsic k)) := by
  refine ⟨?_, by decide, by decide, ?_, ?_, ?_⟩
  · by_cases h : k ∈ M16956.mdxTags <;> simp [M16956.pageDefaults, h]
  · intro v h
    simp [M16956.pageBindings, spread, h]
  · intro hp v hc
    simp [M16956.pageBindings, spread, M11151.c, M11151.a, hp, hc]
  · intro hp hc hm
    simp [M16956.pageBindings, spread, M11151.c, M11151.a,
      M16956.pageDefaults, hp, hc, hm]

/-- Concrete inherited context for the C7 witness: only `h3` is overridden. -/
def ctx7 : Mapping Renderer :=
  fun k => if k = "h3" then some (Renderer.custom 1) else none

/-- Concrete props override for the C7 witness: only `code` is overridden. -/
def props7 : Mapping Renderer :=
  fun k => if k = "code" then some (Renderer.custom 2) else none

/-- C7 witness: with context overriding `h3` and props overriding `code`,
the binding takes the props component for `code`, the context component for
`h3`, and the intrinsic default for `p`. -/
theorem C7_bindings_witness :
    M16956.pageBindings ctx7 props7 "code" = some (Renderer.custom 2) ∧
    M16956.pageBindings ctx7 props7 "h3" = some (Renderer.custom 1) ∧
    M16956.pageBindings ctx7 props7 "p" = some (Renderer.intrinsic "p") :=
  ⟨(C7_bindings ctx7 props7 "code").2.2.2.1 (Renderer.custom 2) (by decide),
   (C7_bindings ctx7 props7 "h3").2.2.2.2.1 (by decide)
     (Renderer.custom 1) (by decide),
   (C7_bindings ctx7 props7 "p").2.2.2.2.2 (by decide) (by decide) (by decide)⟩

/-- C8: the metadata record's routing slug is `/reference/agentchat/utils`,
its previous link is titled `user_proxy_agent` and its next link is titled
`abstract_cache_base`, each with its permalink; the record is a closed
constant of the embedding, and no definition in this file modifies it. -/
theorem C8_navigation :
    M16956.o.slug = "/reference/agentchat/utils" ∧
    M16956.o.previous =
      { title := "user_proxy_agent"
        permalink := "/autogen/docs/reference/agentchat/user_proxy_agent" } ∧
    M16956.o.next =
      { title := "abstract_cache_base"
        permalink := "/autogen/docs/reference/cache/abstract_cache_base" } :=
  ⟨rfl, rfl, rfl⟩

/-- C10: the table of contents has exactly one entry; the render tree has
exactly one `h3` element; the entry's anchor id equals that heading's `id`
attribute (namely `gather_usage_summary`), the entry's value equals the
heading's text, and the entry's level is 3. -/
theorem C10_toc_matches_heading :
    ∃ entry,
      M16956.i = [entry] ∧
      (M16956.elemsWithTagList "h3" M16956.pageTree).map M16956.nodeId =
        [some entry.id] ∧
      (M16956.elemsWithTagList "h3" M16956.pageTree).map M16956.soleTextChild =
        [some entry.value] ∧
      entry.id = "gather_usage_summary" ∧ entry.level = 3 := by
  refine ⟨{ value := "gather_usage_summary"
            id := "gather_usage_summary"
            level := 3 }, rfl, by decide, by decide, rfl, rfl⟩
